import Mathlib

/-!
Shallow embedding of the ISA (International Standard Atmosphere) calculation
core of the repository, `src/lib/isa-calculations.ts`, together with proofs of
the spec's testable properties.  Floating-point numbers of the source are
modelled as real numbers; `Math.exp`, `Math.pow` and `Math.sqrt` become
`Real.exp`, `Real.rpow` and `Real.sqrt`.
-/

noncomputable section

open Classical

/-- Physical constants: the `ISA_CONSTANTS` object of the source. -/
structure IsaConstants where
  g0 : ℝ
  R : ℝ
  M : ℝ
  Rstar : ℝ
  gamma : ℝ
  T0 : ℝ
  P0 : ℝ
  rho0 : ℝ

/-- `ISA_CONSTANTS` from the source (same field order and values). -/
def ISA_CONSTANTS : IsaConstants :=
  { g0 := 9.80665
    R := 287.05287
    M := 0.0289644
    Rstar := 8.31432
    gamma := 1.4
    T0 := 288.15
    P0 := 101325
    rho0 := 1.225 }

/-- The `AtmosphericLayer` interface of the source. -/
structure AtmosphericLayer where
  name : String
  baseAltitude : ℝ
  baseTemperature : ℝ
  lapseRate : ℝ
  basePressure : ℝ

instance : Inhabited AtmosphericLayer := ⟨⟨"", 0, 0, 0, 0⟩⟩

/-- The `LAYERS` table of the source, in source order. -/
def LAYERS : List AtmosphericLayer :=
  [ ⟨"Troposphere", 0, 288.15, -0.0065, 101325⟩,
    ⟨"Tropopause", 11000, 216.65, 0, 22632.1⟩,
    ⟨"Stratosphere I", 20000, 216.65, 0.001, 5474.89⟩,
    ⟨"Stratosphere II", 32000, 228.65, 0.0028, 868.019⟩,
    ⟨"Stratopause", 47000, 270.65, 0, 110.906⟩,
    ⟨"Mesosphere I", 51000, 270.65, -0.0028, 66.9389⟩,
    ⟨"Mesosphere II", 71000, 214.65, -0.002, 3.95642⟩,
    ⟨"Mesopause", 86000, 186.87, 0, 0.3734⟩ ]

/-- The `AtmosphericResult` interface of the source. -/
structure AtmosphericResult where
  altitude : ℝ
  temperature : ℝ
  temperatureCelsius : ℝ
  pressure : ℝ
  density : ℝ
  speedOfSound : ℝ
  dynamicViscosity : ℝ
  kinematicViscosity : ℝ
  layer : AtmosphericLayer
  layerName : String

/-- The body of the `getLayer` loop: `getLayerFrom (i+1) h` performs the source
loop `for (let i = LAYERS.length - 1; i >= 0; i--)` starting at index `i`, and
`getLayerFrom 0 h` is the fallback `return LAYERS[0]` after the loop. -/
def getLayerFrom : ℕ → ℝ → AtmosphericLayer
  | 0, _ => LAYERS.getD 0 default
  | i + 1, h =>
      if (LAYERS.getD i default).baseAltitude ≤ h then LAYERS.getD i default
      else getLayerFrom i h

/-- `getLayer` from the source: scan the table from the top layer downwards and
return the first layer whose base altitude is `≤ h`; fall back to `LAYERS[0]`. -/
def getLayer (altitudeM : ℝ) : AtmosphericLayer :=
  getLayerFrom LAYERS.length altitudeM

/-- `calculateTemperature` from the source. -/
def calculateTemperature (altitudeM : ℝ) : ℝ :=
  let layer := getLayer altitudeM
  let deltaH := altitudeM - layer.baseAltitude
  layer.baseTemperature + layer.lapseRate * deltaH

/-- The linear temperature formula of `calculateTemperature`, applied to an
explicitly given layer: `Tb + L·(h - hb)`.  Used to state layer-boundary
continuity of the table. -/
def layerTemperature (layer : AtmosphericLayer) (altitudeM : ℝ) : ℝ :=
  layer.baseTemperature + layer.lapseRate * (altitudeM - layer.baseAltitude)

/-- `calculatePressure` from the source: isothermal closed form when the
resolved layer's lapse rate is exactly `0`, gradient closed form otherwise. -/
def calculatePressure (altitudeM : ℝ) : ℝ :=
  let layer := getLayer altitudeM
  let deltaH := altitudeM - layer.baseAltitude
  let T := calculateTemperature altitudeM
  if layer.lapseRate = 0 then
    layer.basePressure * Real.exp (-ISA_CONSTANTS.g0 * deltaH / (ISA_CONSTANTS.R * T))
  else
    layer.basePressure *
      Real.rpow (T / layer.baseTemperature) (-ISA_CONSTANTS.g0 / (layer.lapseRate * ISA_CONSTANTS.R))

/-- `calculateDensity` from the source: ideal gas law. -/
def calculateDensity (pressure temperature : ℝ) : ℝ :=
  pressure / (ISA_CONSTANTS.R * temperature)

/-- `calculateSpeedOfSound` from the source. -/
def calculateSpeedOfSound (temperature : ℝ) : ℝ :=
  Real.sqrt (ISA_CONSTANTS.gamma * ISA_CONSTANTS.R * temperature)

/-- `calculateDynamicViscosity` from the source (Sutherland's formula). -/
def calculateDynamicViscosity (temperature : ℝ) : ℝ :=
  let mu0 : ℝ := 1.7894e-5
  let T0 : ℝ := 288.15
  let S : ℝ := 110.4
  mu0 * Real.rpow (temperature / T0) 1.5 * ((T0 + S) / (temperature + S))

/-- `calculateAtmosphere` from the source: clamp the altitude into
`[0, 86000]`, then compute every property at the clamped altitude. -/
def calculateAtmosphere (altitudeM : ℝ) : AtmosphericResult :=
  let clampedAlt := max 0 (min 86000 altitudeM)
  let layer := getLayer clampedAlt
  let temperature := calculateTemperature clampedAlt
  let pressure := calculatePressure clampedAlt
  let density := calculateDensity pressure temperature
  let speedOfSound := calculateSpeedOfSound temperature
  let dynamicViscosity := calculateDynamicViscosity temperature
  let kinematicViscosity := dynamicViscosity / density
  { altitude := clampedAlt
    temperature := temperature
    temperatureCelsius := temperature - 273.15
    pressure := pressure
    density := density
    speedOfSound := speedOfSound
    dynamicViscosity := dynamicViscosity
    kinematicViscosity := kinematicViscosity
    layer := layer
    layerName := layer.name }

/-- Fuel-indexed embedding of the `for (let alt = startAltM; alt <= endAltM;
alt += stepM)` loop of `generateProfile`.  The source loop can fail to
terminate (for `stepM ≤ 0`), so it is encoded with a fuel argument: `some l`
means the loop exited normally with accumulated results `l` within `fuel`
iterations, `none` means the loop is still running after `fuel` iterations. -/
def genLoopF (stepM endM : ℝ) : ℕ → ℝ → Option (List AtmosphericResult)
  | 0, alt => if alt ≤ endM then none else some []
  | n + 1, alt =>
      if alt ≤ endM then
        Option.map (fun l => calculateAtmosphere alt :: l) (genLoopF stepM endM n (alt + stepM))
      else some []

/-- `generateProfile` from the source, with the loop's possible
non-termination made explicit by the fuel argument of `genLoopF`. -/
def generateProfile (startAltM endAltM stepM : ℝ) (fuel : ℕ) :
    Option (List AtmosphericResult) :=
  genLoopF stepM endAltM fuel startAltM

/-- The altitude keys of `UNITS.altitude` in the source. -/
inductive AltitudeUnit
  | m
  | km
  | ft

/-- The `factor` fields of `UNITS.altitude` in the source. -/
def altitudeFactor : AltitudeUnit → ℝ
  | .m => 1
  | .km => 1000
  | .ft => 0.3048

/-- `convertAltitude` from the source. -/
def convertAltitude (value : ℝ) (u v : AltitudeUnit) : ℝ :=
  let meters := value * altitudeFactor u
  meters / altitudeFactor v

end

/-! Helper lemmas about the embedded definitions. -/

lemma getLayerFrom_succ (i : ℕ) (h : ℝ) :
    getLayerFrom (i + 1) h =
      if (LAYERS.getD i default).baseAltitude ≤ h then LAYERS.getD i default
      else getLayerFrom i h := rfl

/-- Unfolding of the `getLayer` scan into an explicit case split on the
layer-base thresholds of the table. -/
lemma getLayer_eq (h : ℝ) :
    getLayer h =
      if 86000 ≤ h then ⟨"Mesopause", 86000, 186.87, 0, 0.3734⟩
      else if 71000 ≤ h then ⟨"Mesosphere II", 71000, 214.65, -0.002, 3.95642⟩
      else if 51000 ≤ h then ⟨"Mesosphere I", 51000, 270.65, -0.0028, 66.9389⟩
      else if 47000 ≤ h then ⟨"Stratopause", 47000, 270.65, 0, 110.906⟩
      else if 32000 ≤ h then ⟨"Stratosphere II", 32000, 228.65, 0.0028, 868.019⟩
      else if 20000 ≤ h then ⟨"Stratosphere I", 20000, 216.65, 0.001, 5474.89⟩
      else if 11000 ≤ h then ⟨"Tropopause", 11000, 216.65, 0, 22632.1⟩
      else ⟨"Troposphere", 0, 288.15, -0.0065, 101325⟩ := by
  show getLayerFrom 8 h = _
  rw [getLayerFrom_succ 7 h, getLayerFrom_succ 6 h, getLayerFrom_succ 5 h, getLayerFrom_succ 4 h,
    getLayerFrom_succ 3 h, getLayerFrom_succ 2 h, getLayerFrom_succ 1 h, getLayerFrom_succ 0 h,
    show getLayerFrom 0 h = LAYERS.getD 0 default from rfl]
  norm_num [LAYERS, List.getD, ite_self]

/-- The clamp of `calculateAtmosphere` is idempotent. -/
lemma clamp_idem (h : ℝ) :
    max 0 (min 86000 (max 0 (min 86000 h))) = max 0 (min 86000 h) := by
  rcases le_total h (0:ℝ) with h0 | h0
  · rcases le_total (86000:ℝ) h with h1 | h1 <;>
      simp [max_def, min_def] <;> split_ifs <;> linarith
  · rcases le_total (86000:ℝ) h with h1 | h1 <;>
      simp [max_def, min_def] <;> split_ifs <;> linarith

lemma genLoopF_zero (stepM endM alt : ℝ) :
    genLoopF stepM endM 0 alt = if alt ≤ endM then none else some [] := rfl

lemma genLoopF_succ (stepM endM : ℝ) (n : ℕ) (alt : ℝ) :
    genLoopF stepM endM (n + 1) alt =
      if alt ≤ endM then
        Option.map (fun l => calculateAtmosphere alt :: l) (genLoopF stepM endM n (alt + stepM))
      else some [] := rfl

/-- With a positive step, the profile loop exits within any fuel exceeding
`⌊(endM - alt) / stepM⌋ + 1` iterations, and the list it accumulates has at
most `⌊(endM - alt) / stepM⌋ + 1` entries. -/
lemma genLoopF_term (st e : ℝ) (hst : 0 < st) :
    ∀ n : ℕ, ∀ alt : ℝ, (alt ≤ e → Nat.floor ((e - alt) / st) < n) →
      ∃ l, genLoopF st e n alt = some l ∧
        l.length ≤ if alt ≤ e then Nat.floor ((e - alt) / st) + 1 else 0 := by
  intro n
  induction n with
  | zero =>
      intro alt hfl
      by_cases hc : alt ≤ e
      · exact absurd (hfl hc) (Nat.not_lt_zero _)
      · exact ⟨[], by rw [genLoopF_zero, if_neg hc], by simp [if_neg hc]⟩
  | succ m ih =>
      intro alt hfl
      by_cases hc : alt ≤ e
      · have hkey : (e - (alt + st)) / st = (e - alt) / st - 1 := by
          field_simp
          ring
        have hinner : alt + st ≤ e → Nat.floor ((e - (alt + st)) / st) < m := by
          intro hc2
          have h1 : (1:ℝ) ≤ (e - alt) / st := by
            rw [le_div_iff₀ hst]; linarith
          have hfl1 : 1 ≤ Nat.floor ((e - alt) / st) := Nat.le_floor (by exact_mod_cast h1)
          have h2 := hfl hc
          rw [hkey, Nat.floor_sub_one]
          omega
        obtain ⟨l, hl, hlen⟩ := ih (alt + st) hinner
        refine ⟨calculateAtmosphere alt :: l, ?_, ?_⟩
        · rw [genLoopF_succ, if_pos hc, hl]; rfl
        · rw [if_pos hc]
          by_cases hc2 : alt + st ≤ e
          · rw [if_pos hc2] at hlen
            have h1 : (1:ℝ) ≤ (e - alt) / st := by rw [le_div_iff₀ hst]; linarith
            have hfl1 : 1 ≤ Nat.floor ((e - alt) / st) := Nat.le_floor (by exact_mod_cast h1)
            rw [hkey, Nat.floor_sub_one] at hlen
            simp only [List.length_cons]
            omega
          · rw [if_neg hc2] at hlen
            simp only [List.length_cons]
            omega
      · exact ⟨[], by rw [genLoopF_succ, if_neg hc], by simp [if_neg hc]⟩

/-! The claims. -/

/-- C1: for every real altitude input `h`, `calculateAtmosphere h` equals
`calculateAtmosphere` applied to `h` clamped into `[0, 86000]`, and the
result's altitude field is the clamped value; in particular
`calculateAtmosphere (-500) = calculateAtmosphere 0` and
`calculateAtmosphere 200000 = calculateAtmosphere 86000`. -/
theorem claim_C1 :
    (∀ h : ℝ, calculateAtmosphere h = calculateAtmosphere (max 0 (min 86000 h)) ∧
      (calculateAtmosphere h).altitude = max 0 (min 86000 h)) ∧
    calculateAtmosphere (-500) = calculateAtmosphere 0 ∧
    calculateAtmosphere 200000 = calculateAtmosphere 86000 := by
  refine ⟨fun h => ⟨?_, rfl⟩, ?_, ?_⟩
  · simp only [calculateAtmosphere, clamp_idem]
  · have e1 : max 0 (min 86000 (-500:ℝ)) = max 0 (min 86000 (0:ℝ)) := by
      simp [max_def, min_def]
      norm_num
    simp only [calculateAtmosphere, e1]
  · have e2 : max 0 (min 86000 (200000:ℝ)) = max 0 (min 86000 (86000:ℝ)) := by
      simp [max_def, min_def]
      norm_num
    simp only [calculateAtmosphere, e2]

/-- C2: for every altitude, `calculatePressure` uses the isothermal closed form
`Pb · exp(-g0·(h-hb) / (R·T))` exactly when the resolved layer's lapse rate is
(exactly) zero, and otherwise the gradient closed form
`Pb · (T/Tb)^(-g0/(L·R))`, with `Pb`, `Tb`, `hb`, `L` taken from the resolved
layer and `T` the temperature at `h`. -/
theorem claim_C2 (h : ℝ) :
    ((getLayer h).lapseRate = 0 →
      calculatePressure h =
        (getLayer h).basePressure *
          Real.exp (-ISA_CONSTANTS.g0 * (h - (getLayer h).baseAltitude) /
            (ISA_CONSTANTS.R * calculateTemperature h))) ∧
    ((getLayer h).lapseRate ≠ 0 →
      calculatePressure h =
        (getLayer h).basePressure *
          Real.rpow (calculateTemperature h / (getLayer h).baseTemperature)
            (-ISA_CONSTANTS.g0 / ((getLayer h).lapseRate * ISA_CONSTANTS.R))) := by
  constructor
  · intro hL
    simp only [calculatePressure]
    rw [if_pos hL]
  · intro hL
    simp only [calculatePressure]
    rw [if_neg hL]

/-- Witness for C2 at altitude `0` (Troposphere, gradient layer). -/
theorem claim_C2_witness :
    calculatePressure 0 =
      (getLayer 0).basePressure *
        Real.rpow (calculateTemperature 0 / (getLayer 0).baseTemperature)
          (-ISA_CONSTANTS.g0 / ((getLayer 0).lapseRate * ISA_CONSTANTS.R)) :=
  (claim_C2 0).2 (by rw [getLayer_eq]; norm_num)

/-- C3 counterexample: at the 86000 m boundary, the lower layer's
(Mesosphere II) linear temperature formula gives 184.65 K, which differs from
the Mesopause `baseTemperature` of 186.87 K stored in the table — so the
claimed continuity fails at this boundary. -/
theorem claim_C3_counterexample :
    layerTemperature (LAYERS.getD 6 default) 86000 ≠ (LAYERS.getD 7 default).baseTemperature := by
  norm_num [layerTemperature, LAYERS, List.getD]

/-- C3 (amended): the lower layer's linear temperature formula evaluated at
the boundary altitude equals the upper layer's `baseTemperature` at the six
boundaries 11000, 20000, 32000, 47000, 51000 and 71000 m; at the seventh
boundary, 86000 m, the formula gives 184.65 K while the table stores
186.87 K. -/
theorem claim_C3 :
    layerTemperature (LAYERS.getD 0 default) 11000 = (LAYERS.getD 1 default).baseTemperature ∧
    layerTemperature (LAYERS.getD 1 default) 20000 = (LAYERS.getD 2 default).baseTemperature ∧
    layerTemperature (LAYERS.getD 2 default) 32000 = (LAYERS.getD 3 default).baseTemperature ∧
    layerTemperature (LAYERS.getD 3 default) 47000 = (LAYERS.getD 4 default).baseTemperature ∧
    layerTemperature (LAYERS.getD 4 default) 51000 = (LAYERS.getD 5 default).baseTemperature ∧
    layerTemperature (LAYERS.getD 5 default) 71000 = (LAYERS.getD 6 default).baseTemperature ∧
    layerTemperature (LAYERS.getD 6 default) 86000 = 184.65 ∧
    (LAYERS.getD 7 default).baseTemperature = 186.87 := by
  norm_num [layerTemperature, LAYERS, List.getD]

/-- C4: for every altitude, the density field of `calculateAtmosphere` is the
pressure field divided by `R` times the temperature field of that same result
(ideal gas law applied to this call's own `P` and `T`). -/
theorem claim_C4 (h : ℝ) :
    (calculateAtmosphere h).density =
      (calculateAtmosphere h).pressure / (ISA_CONSTANTS.R * (calculateAtmosphere h).temperature) :=
  rfl

/-- C5: `generateProfile 0 10000 1000` (with fuel 11, which is enough for the
loop to exit) produces exactly the 11 results `calculateAtmosphere 0`,
`calculateAtmosphere 1000`, …, `calculateAtmosphere 10000`, whose altitude
fields are the strictly ascending sequence 0, 1000, …, 10000; and
`generateProfile 10000 0 1000` (start > end) produces the empty sequence for
every fuel, not an error. -/
theorem claim_C5 :
    generateProfile 0 10000 1000 11 =
      some [calculateAtmosphere 0, calculateAtmosphere 1000, calculateAtmosphere 2000,
        calculateAtmosphere 3000, calculateAtmosphere 4000, calculateAtmosphere 5000,
        calculateAtmosphere 6000, calculateAtmosphere 7000, calculateAtmosphere 8000,
        calculateAtmosphere 9000, calculateAtmosphere 10000] ∧
    List.length
      [calculateAtmosphere 0, calculateAtmosphere 1000, calculateAtmosphere 2000,
        calculateAtmosphere 3000, calculateAtmosphere 4000, calculateAtmosphere 5000,
        calculateAtmosphere 6000, calculateAtmosphere 7000, calculateAtmosphere 8000,
        calculateAtmosphere 9000, calculateAtmosphere 10000] = 11 ∧
    List.map AtmosphericResult.altitude
      [calculateAtmosphere 0, calculateAtmosphere 1000, calculateAtmosphere 2000,
        calculateAtmosphere 3000, calculateAtmosphere 4000, calculateAtmosphere 5000,
        calculateAtmosphere 6000, calculateAtmosphere 7000, calculateAtmosphere 8000,
        calculateAtmosphere 9000, calculateAtmosphere 10000] =
      [0, 1000, 2000, 3000, 4000, 5000, 6000, 7000, 8000, 9000, 10000] ∧
    List.Chain' (fun a b => a < b)
      ([0, 1000, 2000, 3000, 4000, 5000, 6000, 7000, 8000, 9000, 10000] : List ℝ) ∧
    ∀ n : ℕ, generateProfile 10000 0 1000 n = some [] := by
  refine ⟨?_, ?_, ?_, ?_, ?_⟩
  · show genLoopF 1000 10000 11 0 = _
    norm_num [genLoopF_succ, genLoopF_zero]
  · simp
  · norm_num [calculateAtmosphere, max_def, min_def]
  · norm_num [List.chain'_cons, List.chain'_singleton]
  · intro n
    show genLoopF 1000 0 n 10000 = some []
    cases n with
    | zero => rw [genLoopF_zero, if_neg (by norm_num)]
    | succ m => rw [genLoopF_succ, if_neg (by norm_num)]

/-- C6: the spec requires a non-positive step to fail fast with a
distinguishable `InvalidStep` error; the code has no such check anywhere, and
with `step = 0` and `start ≤ end` the `generateProfile` loop never exits: for
every fuel bound the loop is still running (`none`). -/
theorem claim_C6 : ∀ n : ℕ, generateProfile 0 1000 0 n = none := by
  intro n
  show genLoopF 0 1000 n 0 = none
  induction n with
  | zero => rw [genLoopF_zero, if_pos (by norm_num)]
  | succ m ih =>
      rw [genLoopF_succ, if_pos (by norm_num), add_zero, ih]
      rfl

/-- C7: for every start, end, and step > 0, the `generateProfile` loop
terminates (some finite fuel suffices), and when start ≤ end the number of
samples is bounded by `⌊(end - start) / step⌋ + 1`. -/
theorem claim_C7 (s e st : ℝ) (hst : 0 < st) :
    ∃ n l, generateProfile s e st n = some l ∧
      (s ≤ e → l.length ≤ Nat.floor ((e - s) / st) + 1) := by
  obtain ⟨l, hl, hlen⟩ :=
    genLoopF_term st e hst (Nat.floor ((e - s) / st) + 1) s (fun _ => Nat.lt_succ_self _)
  refine ⟨Nat.floor ((e - s) / st) + 1, l, hl, fun hse => ?_⟩
  rw [if_pos hse] at hlen
  exact hlen

/-- Witness for C7 at `start = 0`, `end = 1`, `step = 1`. -/
theorem claim_C7_witness :
    (0:ℝ) < 1 ∧
      ∃ n l, generateProfile 0 1 1 n = some l ∧
        ((0:ℝ) ≤ 1 → l.length ≤ Nat.floor (((1:ℝ) - 0) / 1) + 1) :=
  ⟨one_pos, claim_C7 0 1 1 one_pos⟩

/-- C8: `getLayer h` is a layer of the table whose `baseAltitude` is `≤ h` and
is greatest among the table's base altitudes that are `≤ h`; for `h` below the
first layer's base (`h < 0`) it returns the first layer (Troposphere). -/
theorem claim_C8 (h : ℝ) :
    (h < 0 → getLayer h = LAYERS.getD 0 default) ∧
    (0 ≤ h → getLayer h ∈ LAYERS ∧ (getLayer h).baseAltitude ≤ h ∧
      ∀ l ∈ LAYERS, l.baseAltitude ≤ h → l.baseAltitude ≤ (getLayer h).baseAltitude) := by
  rw [getLayer_eq]
  split_ifs with h7 h6 h5 h4 h3 h2 h1
  all_goals
    refine ⟨fun hneg => ?_, fun hpos => ⟨by simp [LAYERS], ?_, ?_⟩⟩
  all_goals try rfl
  all_goals try (exfalso; linarith)
  all_goals try (simp only []; linarith)
  all_goals
    intro l hl hlh
    simp only [LAYERS, List.mem_cons, List.not_mem_nil, or_false] at hl
    rcases hl with rfl | rfl | rfl | rfl | rfl | rfl | rfl | rfl <;>
      simp_all <;> linarith

/-- Witness for C8: below the table (altitude -5) the Troposphere is returned;
at altitude 25000 the resolved layer is in the table, its base is ≤ 25000, and
its base is maximal among bases ≤ 25000. -/
theorem claim_C8_witness :
    getLayer (-5) = LAYERS.getD 0 default ∧
      (getLayer 25000 ∈ LAYERS ∧ (getLayer 25000).baseAltitude ≤ 25000 ∧
        ∀ l ∈ LAYERS, l.baseAltitude ≤ 25000 →
          l.baseAltitude ≤ (getLayer 25000).baseAltitude) :=
  ⟨(claim_C8 (-5)).1 (by norm_num), (claim_C8 25000).2 (by norm_num)⟩

/-- C9: `convertAltitude` follows the linear-scale rule
`value · factor(from) / factor(to)`, and consequently the m → ft → m round
trip is the identity. -/
theorem claim_C9 :
    (∀ (x : ℝ) (u v : AltitudeUnit),
      convertAltitude x u v = x * altitudeFactor u / altitudeFactor v) ∧
    ∀ x : ℝ,
      convertAltitude (convertAltitude x AltitudeUnit.m AltitudeUnit.ft)
        AltitudeUnit.ft AltitudeUnit.m = x := by
  refine ⟨fun x u v => rfl, fun x => ?_⟩
  simp only [convertAltitude, altitudeFactor]
  norm_num

/-- C10: the standalone `calculateTemperature` and `calculatePressure` do not
clamp: for every `h > 86000` the resolved layer is the Mesopause and its
formulas are evaluated at `h` itself, so `calculatePressure h` is strictly
below `calculatePressure 86000` and differs from
`(calculateAtmosphere h).pressure`, which is computed at the clamped
altitude 86000. -/
theorem claim_C10 (h : ℝ) (hh : 86000 < h) :
    getLayer h = LAYERS.getD 7 default ∧
    calculateTemperature h = layerTemperature (LAYERS.getD 7 default) h ∧
    calculatePressure h =
      0.3734 * Real.exp (-ISA_CONSTANTS.g0 * (h - 86000) / (ISA_CONSTANTS.R * 186.87)) ∧
    calculatePressure h < calculatePressure 86000 ∧
    calculatePressure h ≠ (calculateAtmosphere h).pressure := by
  have hl : getLayer h = ⟨"Mesopause", 86000, 186.87, 0, 0.3734⟩ := by
    rw [getLayer_eq, if_pos (le_of_lt hh)]
  have hT : calculateTemperature h = 186.87 := by
    simp only [calculateTemperature, hl]
    norm_num
  have hP : calculatePressure h =
      0.3734 * Real.exp (-ISA_CONSTANTS.g0 * (h - 86000) / (ISA_CONSTANTS.R * 186.87)) := by
    simp only [calculatePressure, hl, hT]
    norm_num
  have hP86 : calculatePressure 86000 = 0.3734 := by
    have hl86 : getLayer (86000:ℝ) = ⟨"Mesopause", 86000, 186.87, 0, 0.3734⟩ := by
      rw [getLayer_eq]; norm_num
    simp only [calculatePressure, hl86]
    norm_num [Real.exp_zero]
  have hlt : calculatePressure h < calculatePressure 86000 := by
    rw [hP, hP86]
    have hexp : Real.exp (-ISA_CONSTANTS.g0 * (h - 86000) / (ISA_CONSTANTS.R * 186.87)) < 1 := by
      rw [Real.exp_lt_one_iff]
      apply div_neg_of_neg_of_pos
      · simp only [ISA_CONSTANTS]
        nlinarith
      · simp only [ISA_CONSTANTS]
        norm_num
    nlinarith [Real.exp_pos (-ISA_CONSTANTS.g0 * (h - 86000) / (ISA_CONSTANTS.R * 186.87))]
  have hclamp : max 0 (min 86000 h) = (86000:ℝ) := by
    rw [min_eq_left (le_of_lt hh)]
    norm_num
  have hpr : (calculateAtmosphere h).pressure = calculatePressure 86000 := by
    show calculatePressure (max 0 (min 86000 h)) = calculatePressure 86000
    rw [hclamp]
  refine ⟨by rw [hl]; rfl, ?_, hP, hlt, by rw [hpr]; exact ne_of_lt hlt⟩
  rw [hT]
  norm_num [layerTemperature, LAYERS, List.getD]

/-- Witness for C10 at altitude 100000. -/
theorem claim_C10_witness :
    (86000:ℝ) < 100000 ∧
      (getLayer 100000 = LAYERS.getD 7 default ∧
        calculateTemperature 100000 = layerTemperature (LAYERS.getD 7 default) 100000 ∧
        calculatePressure 100000 =
          0.3734 *
            Real.exp (-ISA_CONSTANTS.g0 * ((100000:ℝ) - 86000) / (ISA_CONSTANTS.R * 186.87)) ∧
        calculatePressure 100000 < calculatePressure 86000 ∧
        calculatePressure 100000 ≠ (calculateAtmosphere 100000).pressure) :=
  ⟨by norm_num, claim_C10 100000 (by norm_num)⟩
